import Mathlib

/-!
Verification development for the docflow document-processing pipeline
(`src/services/document-processor.ts`).  The source file contains several
revisions of the same module separated by document markers; definitions
below are suffixed `V1`, `V2`, `V3` after the revision they are
translated from (V1 = lines 1-348, V2 = lines 348-732, V3 = lines
732-1107 of the concatenated file).  JavaScript numbers are modelled as
rationals (`ℚ`), JavaScript values as the inductive `JSVal`, and
JavaScript objects as insertion-ordered association lists (`JSObj`).
-/

attribute [local semireducible] Rat.mul Rat.inv Rat.add Rat.sub

/-- JavaScript whitespace recognised by `trim` / `parseFloat` (ASCII
subset; the inputs in this development are ASCII). -/
def isJsWS (c : Char) : Bool :=
  c == ' ' || c == '\t' || c == '\n' || c == '\r'

/-- ASCII lower-casing of one character, as `String.prototype.toLowerCase`
acts on ASCII. -/
def jsCharLower (c : Char) : Char :=
  if 'A' ≤ c ∧ c ≤ 'Z' then Char.ofNat (c.toNat + 32) else c

/-- `String.prototype.toLowerCase` (ASCII). -/
def jsToLower (s : String) : String :=
  ⟨s.data.map jsCharLower⟩

/-- `String.prototype.trim`: strip leading and trailing whitespace. -/
def jsTrim (s : String) : String :=
  ⟨((s.data.dropWhile isJsWS).reverse.dropWhile isJsWS).reverse⟩

/-- Decimal digit test. -/
def isDigitChar (c : Char) : Bool :=
  '0' ≤ c && c ≤ '9'

/-- Value of a list of decimal digits. -/
def digitsToNat (l : List Char) : ℕ :=
  l.foldl (fun a c => a * 10 + (c.toNat - 48)) 0

/-- Exponent digits of a JS float literal (after `e`/`E`): optional sign
then digits; an unparsable exponent is ignored (exponent 0), as
`parseFloat` does. -/
def jsExpDigits (t : List Char) : ℤ :=
  let esign : ℤ := match t with | '-' :: _ => -1 | _ => 1
  let t1 := match t with | '-' :: u => u | '+' :: u => u | _ => t
  let ds := t1.takeWhile isDigitChar
  if ds.isEmpty then 0 else esign * (digitsToNat ds : ℤ)

/-- Exponent part of a JS float literal: `e`/`E` followed by exponent
digits, otherwise exponent 0. -/
def jsExpPart (l : List Char) : ℤ :=
  match l with
  | 'e' :: t => jsExpDigits t
  | 'E' :: t => jsExpDigits t
  | _ => 0

/-- JavaScript `parseFloat`: skip leading whitespace, optional sign,
digits with at most one decimal point, optional exponent; `none` models
`NaN` (no digit consumed).  The special literal `Infinity` is not
modelled (never produced by the documents handled here). -/
def jsParseFloat (s : String) : Option ℚ :=
  let l := s.data.dropWhile isJsWS
  let sign : ℚ := match l with | '-' :: _ => -1 | _ => 1
  let l1 := match l with | '-' :: t => t | '+' :: t => t | _ => l
  let intPart := l1.takeWhile isDigitChar
  let r1 := l1.dropWhile isDigitChar
  let fracPart := match r1 with | '.' :: t => t.takeWhile isDigitChar | _ => []
  let r2 := match r1 with | '.' :: t => t.dropWhile isDigitChar | _ => r1
  if intPart.isEmpty && fracPart.isEmpty then none
  else
    let mant : ℚ := (digitsToNat (intPart ++ fracPart) : ℚ) / (10 : ℚ) ^ fracPart.length
    some (sign * mant * (10 : ℚ) ^ jsExpPart r2)

/-- JavaScript `parseInt(s, 10)`: skip leading whitespace, optional sign,
then decimal digits; `none` models `NaN`. -/
def jsParseInt (s : String) : Option ℤ :=
  let l := s.data.dropWhile isJsWS
  let sign : ℤ := match l with | '-' :: _ => -1 | _ => 1
  let l1 := match l with | '-' :: t => t | '+' :: t => t | _ => l
  let ds := l1.takeWhile isDigitChar
  if ds.isEmpty then none else some (sign * (digitsToNat ds : ℤ))

/-- Test for the part-number pattern `P\d{2}-\d{3}-\d{3}` anchored at the
head of the character list; `ci` additionally accepts a lowercase `p`
(the `/i` flag of the V3 revision). -/
def partNumAt (ci : Bool) (l : List Char) : Bool :=
  match l with
  | p :: a :: b :: h1 :: c :: d :: e :: h2 :: f :: g :: i :: _ =>
    (p == 'P' || (ci && p == 'p')) && isDigitChar a && isDigitChar b &&
    h1 == '-' && isDigitChar c && isDigitChar d && isDigitChar e &&
    h2 == '-' && isDigitChar f && isDigitChar g && isDigitChar i
  | _ => false

/-- Unanchored regex search for the part-number pattern. -/
def scanPartNum (ci : Bool) : List Char → Bool
  | [] => false
  | c :: t => partNumAt ci (c :: t) || scanPartNum ci t

/-- `partNumberPattern.test` of the V1/V2 revisions
(`/P\d{2}-\d{3}-\d{3}/`, case-sensitive). -/
def hasPartNumber (s : String) : Bool :=
  scanPartNum false s.data

/-- `partNumberPattern.test` of the V3 revision
(`/P\d{2}-\d{3}-\d{3}/i`). -/
def hasPartNumberCI (s : String) : Bool :=
  scanPartNum true s.data

/-- JavaScript runtime values as they occur in this pipeline. -/
inductive JSVal where
  | VNull
  | VUndef
  | VNum (q : ℚ)
  | VStr (s : String)
deriving DecidableEq, Repr

open JSVal

/-- Smallest `k` with `d ∣ 10^k`, when the denominator terminates in
decimal. -/
def minPow10Div (d : ℕ) : Option ℕ :=
  (List.range 64).find? (fun k => 10 ^ k % d == 0)

/-- Left-pad a numeral with zeros to `k` digits. -/
def natPad (s : String) (k : ℕ) : String :=
  ⟨List.replicate (k - s.length) '0'⟩ ++ s

/-- JavaScript `String(n)` for a number: exact for integers and for
rationals with a terminating decimal expansion, which are the only
numbers this pipeline produces.  (JS prints the shortest round-tripping
decimal of the IEEE double; on the terminating decimals handled here the
two agree.) -/
def jsNumToString (q : ℚ) : String :=
  let sgn := if q.num < 0 then "-" else ""
  let n := q.num.natAbs
  if q.den = 1 then sgn ++ toString n
  else
    match minPow10Div q.den with
    | some k =>
      let m := n * (10 ^ k / q.den)
      sgn ++ toString (m / 10 ^ k) ++ "." ++ natPad (toString (m % 10 ^ k)) k
    | none => sgn ++ toString n ++ "/" ++ toString q.den

/-- JavaScript `String(value)` on the values of this pipeline. -/
def jsStringOf : JSVal → String
  | VNull => "null"
  | VUndef => "undefined"
  | VNum q => jsNumToString q
  | VStr s => s

/-- JavaScript truthiness on the values of this pipeline. -/
def truthy : JSVal → Bool
  | VNull => false
  | VUndef => false
  | VNum q => q != 0
  | VStr s => s != ""

/-- JavaScript `a || b`. -/
def jsOr (a b : JSVal) : JSVal :=
  if truthy a then a else b

/-- Numeric coercion used by `+` when no string is involved.  JS coerces
`undefined` to `NaN`, which `ℚ` cannot represent; in this pipeline `+`
only ever sees `undefined` behind a `|| 0` guard, so the case is
unreachable and coerced to 0. -/
def jsToNum : JSVal → ℚ
  | VNull => 0
  | VUndef => 0
  | VNum q => q
  | VStr _ => 0

/-- JavaScript `a + b` on the values of this pipeline: string
concatenation when either side is a string, numeric addition
otherwise. -/
def jsAdd (a b : JSVal) : JSVal :=
  match a, b with
  | VStr x, _ => VStr (x ++ jsStringOf b)
  | _, VStr y => VStr (jsStringOf a ++ y)
  | _, _ => VNum (jsToNum a + jsToNum b)

/-- A JavaScript object: insertion-ordered association list. -/
abbrev JSObj : Type := List (String × JSVal)

/-- Property read `o[k]`: `none` models an absent key. -/
def objGet : JSObj → String → Option JSVal
  | [], _ => none
  | (k', v) :: t, k => if k' = k then some v else objGet t k

/-- Property read with a default for an absent key (JS yields
`undefined`). -/
def objGetD (o : JSObj) (k : String) (d : JSVal) : JSVal :=
  (objGet o k).getD d

/-- Property write `o[k] = v`: overwrite in place, else append. -/
def objSet (o : JSObj) (k : String) (v : JSVal) : JSObj :=
  if o.any (fun kv => kv.1 == k) then
    o.map (fun kv => if kv.1 = k then (k, v) else kv)
  else o ++ [(k, v)]

/-- One table cell returned by the analysis service: row index, column
index and content. -/
structure Cell where
  rowIndex : ℕ
  columnIndex : ℕ
  content : String
deriving DecidableEq, Repr

/-- Ordering used by the comparator
`a.rowIndex - b.rowIndex || a.columnIndex - b.columnIndex`. -/
def cellLe (a b : Cell) : Bool :=
  decide (a.rowIndex < b.rowIndex) ||
    (a.rowIndex == b.rowIndex && decide (a.columnIndex ≤ b.columnIndex))

/-- Stable insertion for `sortCells`: an element is placed before the
first strictly larger key, after equal keys already present. -/
def insertCell (x : Cell) : List Cell → List Cell
  | [] => [x]
  | y :: ys => if cellLe x y then x :: y :: ys else y :: insertCell x ys

/-- Stable sort of the cell list by `(rowIndex, columnIndex)`, as the
ECMAScript stable `Array.prototype.sort` with the source's comparator. -/
def sortCells (cells : List Cell) : List Cell :=
  cells.foldr insertCell []

/-- Loop body of `extractTableData` (V2, lines 406-421): walk the sorted
cells, opening a fresh row whenever the row index changes and pushing
each content onto the current row. -/
def extractGo : List Cell → ℤ → List String → List (List String) → List (List String)
  | [], _, cur, done => done ++ [cur]
  | c :: cs, curIdx, cur, done =>
    if (c.rowIndex : ℤ) ≠ curIdx then
      extractGo cs (c.rowIndex : ℤ) [c.content] (done ++ [cur])
    else
      extractGo cs curIdx (cur ++ [c.content]) done

/-- `extractTableData` (V2, lines 406-421): sort the cells by
`(rowIndex, columnIndex)` and group contents by row-index change
(`currentRow` starts at -1, so the first cell always opens a row). -/
def extractTableData (cells : List Cell) : List (List String) :=
  match sortCells cells with
  | [] => []
  | c :: cs => extractGo cs (c.rowIndex : ℤ) [c.content] []

/-- Modelled from the spec: the Table Extractor contract of spec 4.2,
which promises a dense rectangular grid of dimensions
`(max rowIndex + 1) × (max columnIndex + 1)` with every position not
supplied by an input cell holding the empty string.  This definition
follows the spec's words and is compared against `extractTableData`,
which is translated from the source. -/
def specRectangularGrid (cells : List Cell) : List (List String) :=
  match cells with
  | [] => []
  | _ =>
    let rmax := cells.foldl (fun m c => max m c.rowIndex) 0
    let cmax := cells.foldl (fun m c => max m c.columnIndex) 0
    (List.range (rmax + 1)).map (fun r =>
      (List.range (cmax + 1)).map (fun c =>
        ((cells.find? (fun cell => cell.rowIndex == r && cell.columnIndex == c)).map
          Cell.content).getD ""))

/-- Synonym pass of `replaceImportHeaders` (identical in V1 lines 53-58
and V2 lines 431-436): map recognised lowercased header names to the
canonical `pu_quant` / `pu_price` / `total`. -/
def replaceSynonyms (h : String) : String :=
  if ["order", "items", "quantity", "qty"].contains h then "pu_quant"
  else if ["cost", "unit price", "price", "#"].contains h then "pu_price"
  else if h == "amount" || h == "total" then "total"
  else h

/-- Does column `i` of the data rows contain a part number
(`df.slice(1).map(row => row[index]?.toString() || '')` then
`.some(cellContent => partNumberPattern.test(cellContent))`)? -/
def columnHasPartNumber (rest : List (List String)) (i : ℕ) : Bool :=
  (rest.map (fun row => (row.get? i).getD "")).any hasPartNumber

/-- `replaceImportHeaders` of the V2 revision (lines 424-450): lowercase
the first row, apply the synonym pass, then rename EVERY column whose
data contains a part number to `pr_codenum` (no uniqueness flag). -/
def replaceImportHeadersV2 (df : List (List String)) : List (List String) :=
  match df with
  | [] => []
  | row0 :: rest =>
    let headers := (row0.map jsToLower).map replaceSynonyms
    (headers.enum.map (fun ih =>
      if columnHasPartNumber rest ih.1 then "pr_codenum" else ih.2)) :: rest

/-- Part-number pass of the V1 revision (lines 60-74): a
`prCodeNumAssigned` flag ensures only the first (leftmost) column whose
data matches the pattern is renamed `pr_codenum`. -/
def assignPrCodenumFlagged (rest : List (List String)) (headers : List String) : List String :=
  (headers.enum.foldl (fun (acc : List String × Bool) ih =>
    if acc.2 then (acc.1 ++ [ih.2], true)
    else if columnHasPartNumber rest ih.1 then (acc.1 ++ ["pr_codenum"], true)
    else (acc.1 ++ [ih.2], false)) ([], false)).1

/-- `replaceImportHeaders` of the V1 revision (lines 46-77): as V2 but
with the uniqueness flag on the part-number pass. -/
def replaceImportHeadersV1 (df : List (List String)) : List (List String) :=
  match df with
  | [] => []
  | row0 :: rest =>
    let headers := (row0.map jsToLower).map replaceSynonyms
    assignPrCodenumFlagged rest headers :: rest

/-- Result record of the V3 `replaceImportHeaders`. -/
structure HeaderResult where
  headers : List String
  rows : List (List String)
deriving DecidableEq, Repr

/-- The predefined positional header list of the V3 revision. -/
def predefinedHeaders : List String :=
  ["pr_codenum", "description", "pu_quant", "pu_price", "total",
   "unit_of_measure", "vendor_sku", "notes"]

/-- `replaceImportHeaders` of the V3 revision (lines 778-832):
positionally assign the predefined headers (generic `column_N` beyond
them), locate the first column whose data matches the case-insensitive
part-number pattern and make it `pr_codenum`, demoting any other column
initially named `pr_codenum` to a generic name; every input row is
returned unmodified as data. -/
def replaceImportHeadersV3 (dataRows : List (List String)) : HeaderResult :=
  if (dataRows.head?.getD []).isEmpty then ⟨[], dataRows⟩
  else
    let numCols := (dataRows.head?.getD []).length
    let assignedHeaders := (List.range numCols).map (fun i =>
      match predefinedHeaders.get? i with
      | some h => h
      | none => "column_" ++ toString (i + 1))
    match (List.range numCols).find? (fun c =>
        dataRows.any (fun row => hasPartNumberCI ((row.get? c).getD ""))) with
    | none => ⟨assignedHeaders, dataRows⟩
    | some c =>
      ⟨assignedHeaders.enum.map (fun ih =>
        if ih.1 = c then "pr_codenum"
        else if ih.2 = "pr_codenum" then "column_" ++ toString (ih.1 + 1)
        else ih.2), dataRows⟩

/-- Item conversion of `analyzeDocument` (V2, lines 657-664): for each
header, take the cell at that index and store
`isNaN(parseFloat(value)) ? value : parseFloat(value)` under the header
name.  A missing cell reads as `undefined`, whose `parseFloat` is `NaN`,
so the `undefined` is stored. -/
def itemOfRowV2 (headers row : List String) : JSObj :=
  headers.enum.foldl (fun item ih =>
    let v : JSVal :=
      match row.get? ih.1 with
      | some s =>
        match jsParseFloat s with
        | some q => VNum q
        | none => VStr s
      | none => VUndef
    objSet item ih.2 v) []

/-- Table pipeline of `analyzeDocument` (V2, lines 652-666):
`extractTableData`, then `replaceImportHeadersV2`, then the item
conversion of each data row.  (On an empty table the JS dereference of
`processedData[0]` would throw; no table of this development is
empty.) -/
def tableToItemsV2 (cells : List Cell) : List JSObj :=
  match replaceImportHeadersV2 (extractTableData cells) with
  | [] => []
  | headers :: dataRows => dataRows.map (fun row => itemOfRowV2 headers row)

/-- Strip `$` and `,` (`strValue.replace(/[\$,]/g, '')`). -/
def stripCurrency (s : String) : String :=
  ⟨s.data.filter (fun c => !(c == '$' || c == ','))⟩

/-- `processStringField` (V1, lines 250-271; identical in V3,
lines 1006-1027), modelling the returned value (the diagnostic warnings
are log-only): null/undefined and whitespace-only strings become `null`,
anything else the trimmed string. -/
def processStringField (value : JSVal) : JSVal :=
  match value with
  | VNull => VNull
  | VUndef => VNull
  | v =>
    let trimmedValue := jsTrim (jsStringOf v)
    if trimmedValue = "" then VNull else VStr trimmedValue

/-- `processNumericField` (V1, lines 274-300; identical in V3,
lines 1030-1056): null/undefined and blank strings become `null`; the
trimmed string is cleaned of `$` and `,` and parsed; an unparsable value
is preserved as the trimmed (not the cleaned) string. -/
def processNumericField (value : JSVal) : JSVal :=
  match value with
  | VNull => VNull
  | VUndef => VNull
  | v =>
    let strValue := jsTrim (jsStringOf v)
    if strValue = "" then VNull
    else
      match jsParseFloat (stripCurrency strValue) with
      | none => VStr strValue
      | some num => VNum num

/-- Per-item processing of `generateExcelOutput` (V1, lines 302-315;
identical in V3, lines 1058-1071): the five canonical fields are always
written from the field processors, then every other key of the item is
retained verbatim. -/
def processItemV1 (item : JSObj) : JSObj :=
  ("pr_codenum", processStringField (objGetD item "pr_codenum" VUndef)) ::
  ("description", processStringField (objGetD item "description" VUndef)) ::
  ("pu_quant", processNumericField (objGetD item "pu_quant" VUndef)) ::
  ("pu_price", processNumericField (objGetD item "pu_price" VUndef)) ::
  ("total", processNumericField (objGetD item "total" VUndef)) ::
  item.filter (fun kv =>
    !(["pr_codenum", "description", "pu_quant", "pu_price", "total"].contains kv.1))

/-- Per-item sanitization of `generateExcelOutput` (V2, lines 713-720):
iterate the item's own keys and replace a string value whose trim is
empty by `null`, keeping every other value as-is. -/
def sanitizeItemV2 (item : JSObj) : JSObj :=
  item.map (fun kv =>
    (kv.1,
      match kv.2 with
      | VStr s => if jsTrim s = "" then VNull else VStr s
      | v => v))

/-- Blank-row filter of `generateExcelOutput` (V3, lines 1084-1088): keep
an item iff some property value is not `null`. -/
def finalItems (processedItems : List JSObj) : List JSObj :=
  processedItems.filter (fun item => item.any (fun kv => kv.2 != VNull))

/-- Log emitted by the blank-row filter (V3, lines 1090-1092): one line
with the count of removed rows, only when some row was removed. -/
def blankRowLog (processedItems : List JSObj) : List String :=
  if processedItems.length ≠ (finalItems processedItems).length then
    ["[Data Quality] Removed " ++
      toString (processedItems.length - (finalItems processedItems).length) ++
      " entirely blank rows before Excel generation."]
  else []

/-- Rows handed to the spreadsheet encoder by the V3
`generateExcelOutput`: per-item processing, then the blank-row
filter. -/
def generateExcelRowsV3 (items : List JSObj) : List JSObj :=
  finalItems (items.map processItemV1)

/-- Retry constants (V2, lines 352-354). -/
def MAX_RETRIES : ℕ := 3

/-- Initial exponential-backoff delay in milliseconds (V2, line 353). -/
def INITIAL_DELAY_MS : ℤ := 3000

/-- Delay cap in milliseconds (V2, line 354). -/
def MAX_DELAY_MS : ℤ := 30000

/-- The error thrown by a failed analysis attempt, with the optional
retry hints the source inspects: `statusCode`, `retryAfterInMs`, the
resolved `retry-after` response header, and `message`. -/
structure ErrorRec where
  message : String
  statusCode : Option ℤ
  retryAfterInMs : Option ℤ
  retryAfterHeader : Option String
deriving DecidableEq, Repr

/-- Match attempt of `/retry after (\d+) seconds/i` at the head of an
(already lowercased) character list: the literal text `retry after `,
one or more digits, then ` seconds`. -/
def tryMatchRetryAfter (l : List Char) : Option ℕ :=
  if l.take 12 = "retry after ".data then
    let rest := l.drop 12
    let ds := rest.takeWhile isDigitChar
    if !ds.isEmpty && (rest.drop ds.length).take 8 = " seconds".data then
      some (digitsToNat ds)
    else none
  else none

/-- Unanchored search for `/retry after (\d+) seconds/i`, advancing one
character at a time as the regex engine does. -/
def retryAfterScan : List Char → Option ℕ
  | [] => none
  | c :: t =>
    match tryMatchRetryAfter (c :: t) with
    | some n => some n
    | none => retryAfterScan t

/-- Captured group of `error.message.match(/retry after (\d+) seconds/i)`,
parsed (`\d+` always parses). -/
def messageRetrySeconds (msg : String) : Option ℕ :=
  retryAfterScan ((jsToLower msg).data)

/-- Service-suggested delay of the V2 retry loop (lines 585-616): on a
429 only, `error.retryAfterInMs` first; else a truthy `retry-after`
header parsed as seconds and multiplied by 1000; else the first
`retry after N seconds` in a non-empty message, times 1000.  `none`
means no suggestion was found (`isAzureSuggestedDelay` stays false). -/
def suggestedDelayV2 (e : ErrorRec) : Option ℤ :=
  if e.statusCode = some 429 then
    match e.retryAfterInMs with
    | some ms => some ms
    | none =>
      let fromHeader : Option ℤ :=
        match e.retryAfterHeader with
        | some h =>
          if h ≠ "" then
            match jsParseInt h with
            | some n => some (n * 1000)
            | none => none
          else none
        | none => none
      match fromHeader with
      | some d => some d
      | none =>
        if e.message ≠ "" then
          match messageRetrySeconds e.message with
          | some n => some ((n : ℤ) * 1000)
          | none => none
        else none
  else none

/-- Delay computed before retrying attempt `attempt` (V2, lines 580-623):
the service-suggested delay when one was found, else exponential backoff
`initialDelay * 2^attempt`; in both cases capped at `MAX_DELAY_MS`. -/
def computeDelayV2 (attempt : ℕ) (e : ErrorRec) : ℤ :=
  match suggestedDelayV2 e with
  | some d => min d MAX_DELAY_MS
  | none => min (INITIAL_DELAY_MS * 2 ^ attempt) MAX_DELAY_MS

/-- The tables of a successful service result (`result.tables`, each a
cell list). -/
structure TablesResult where
  tables : List (List Cell)
deriving DecidableEq, Repr

deriving instance DecidableEq for Except

/-- Trace of the retry loop: attempts actually performed, delays waited
between them, and the final outcome (last thrown error, or success). -/
structure RetryRun where
  attempts : ℕ
  delays : List ℤ
  outcome : Except ErrorRec TablesResult
deriving DecidableEq, Repr

/-- The retry loop of `analyzeDocument` (V2, lines 572-640) run against a
script giving the outcome of each successive attempt: `k` is the current
0-indexed attempt number and the fuel is the number of retries still
allowed.  Success breaks out of the loop; a failure with fuel left
computes a delay and retries; a failure at the last attempt rethrows the
last error. -/
def runRetry (script : ℕ → Except ErrorRec TablesResult) : ℕ → ℕ → RetryRun
  | k, 0 => ⟨1, [], script k⟩
  | k, fuel + 1 =>
    match script k with
    | .ok r => ⟨1, [], .ok r⟩
    | .error e =>
      let rest := runRetry script (k + 1) fuel
      ⟨rest.attempts + 1, computeDelayV2 k e :: rest.delays, rest.outcome⟩

/-- The full retry loop: first attempt 0, `MAX_RETRIES` retries. -/
def analyzeRun (script : ℕ → Except ErrorRec TablesResult) : RetryRun :=
  runRetry script 0 MAX_RETRIES

/-- `PurchaseOrderData` as constructed by the V2 `analyzeDocument`
(lines 669-675): fixed empty strings, the accumulated items and the
reduced total. -/
structure PurchaseOrderData where
  poNumber : String
  poDate : String
  vendor : String
  total : JSVal
  items : List JSObj
deriving DecidableEq, Repr

/-- `ProcessingResult` of the source (success flag, optional data,
optional error message). -/
structure ProcessingResult where
  success : Bool
  data : Option PurchaseOrderData
  error : Option String
deriving DecidableEq, Repr

/-- `items.reduce((sum, item) => sum + (item.total || 0), 0)` (V2,
line 674). -/
def poTotal (items : List JSObj) : JSVal :=
  items.foldl (fun sum item => jsAdd sum (jsOr (objGetD item "total" VUndef) (VNum 0))) (VNum 0)

/-- `analyzeDocument` for a purchase order (V2, lines 572-686),
abstracted over the per-attempt outcomes: run the retry loop; if every
attempt failed the rethrown last error is caught by the surrounding
`try` and surfaced as `{success: false, error: error.message}`; on
success, a result with tables goes through the table pipeline and one
without tables yields the fixed no-table error. -/
def analyzeDocumentResult (script : ℕ → Except ErrorRec TablesResult) : ProcessingResult :=
  match (analyzeRun script).outcome with
  | .error e => ⟨false, none, some e.message⟩
  | .ok r =>
    if r.tables.isEmpty then ⟨false, none, some "No table data found in document"⟩
    else
      let items := (r.tables.map tableToItemsV2).flatten
      ⟨true, some ⟨"", "", "", poTotal items, items⟩, none⟩

/-- Attempt counting: the retry loop performs at most `fuel + 1`
attempts. -/
theorem runRetry_attempts_le (script : ℕ → Except ErrorRec TablesResult) :
    ∀ (fuel k : ℕ), (runRetry script k fuel).attempts ≤ fuel + 1 := by
  intro fuel
  induction fuel with
  | zero => intro k; exact Nat.le_refl 1
  | succ fuel ih =>
    intro k
    unfold runRetry
    cases hsk : script k with
    | ok r => exact Nat.le_add_left 1 (fuel + 1)
    | error e =>
      have h := ih (k + 1)
      dsimp only
      omega

/-- When every scripted attempt fails, the retry loop's outcome is the
error of the last attempt, `script (k + fuel)`. -/
theorem runRetry_allfail_outcome (script : ℕ → Except ErrorRec TablesResult) :
    ∀ (fuel k : ℕ), (∀ j, k ≤ j → j ≤ k + fuel → ∃ e, script j = Except.error e) →
      (runRetry script k fuel).outcome = script (k + fuel) := by
  intro fuel
  induction fuel with
  | zero => intro k _; simp [runRetry]
  | succ fuel ih =>
    intro k hall
    obtain ⟨e, he⟩ := hall k (Nat.le_refl k) (by omega)
    unfold runRetry
    rw [he]
    have h2 := ih (k + 1) (fun j hj1 hj2 => hall j (by omega) (by omega))
    dsimp only
    rw [h2]
    congr 1
    omega

/-- Content conservation of the grouping loop of `extractTableData`. -/
theorem extractGo_flatten : ∀ (cs : List Cell) (curIdx : ℤ) (cur : List String)
    (done : List (List String)),
    (extractGo cs curIdx cur done).flatten = done.flatten ++ cur ++ cs.map Cell.content := by
  intro cs
  induction cs with
  | nil => intro curIdx cur done; simp [extractGo]
  | cons c cs ih =>
    intro curIdx cur done
    unfold extractGo
    by_cases h : (c.rowIndex : ℤ) ≠ curIdx
    · rw [if_pos h, ih]; simp
    · rw [if_neg h, ih]; simp

/-- The rows of `extractTableData` concatenate to exactly the sorted cell
contents: no empty-string padding is added and no cell is dropped. -/
theorem extractTableData_flatten (cells : List Cell) :
    (extractTableData cells).flatten = (sortCells cells).map Cell.content := by
  unfold extractTableData
  cases h : sortCells cells with
  | nil => simp
  | cons c cs => rw [extractGo_flatten]; simp

/-- The end-to-end scenario-A table: header row
`["Order", "Description", "Price", "Amount"]` above the data row
`["5", "Widget", "$2.00", "$10.00"]`. -/
def scenarioACells : List Cell :=
  [⟨0, 0, "Order"⟩, ⟨0, 1, "Description"⟩, ⟨0, 2, "Price"⟩, ⟨0, 3, "Amount"⟩,
   ⟨1, 0, "5"⟩, ⟨1, 1, "Widget"⟩, ⟨1, 2, "$2.00"⟩, ⟨1, 3, "$10.00"⟩]

/-- C1, counterexample.  The claim states the table pipeline yields the
line item `{pu_quant: 5, description: "Widget", pu_price: 2.00,
total: 10.00}` with `pu_price` and `total` as numbers.  On the
scenario-A table the pipeline stores `pu_price` as the string `"$2.00"`
(JavaScript `parseFloat` yields `NaN` on a leading dollar sign, so the
conversion keeps the raw cell), not the number `2.00`. -/
theorem C1_counterexample :
    ((tableToItemsV2 scenarioACells).get? 0).bind (fun it => objGet it "pu_price") =
      some (VStr "$2.00")
    ∧ VStr "$2.00" ≠ VNum 2
    ∧ tableToItemsV2 scenarioACells ≠
        [[("pu_quant", VNum 5), ("description", VStr "Widget"),
          ("pu_price", VNum 2), ("total", VNum 10)]] := by
  refine ⟨by decide, by decide, by decide⟩

/-- C1, amended.  The table pipeline (`extractTableData`,
`replaceImportHeadersV2`, item conversion of `analyzeDocument`) on the
scenario-A table yields exactly one line item
`{pu_quant: 5, description: "Widget", pu_price: "$2.00",
total: "$10.00"}`: the quantity is converted to the number 5, while the
currency cells fail `parseFloat` and are preserved as their original
strings (numeric parsing of currency happens only later, in the export
sanitization). -/
theorem C1_theorem :
    tableToItemsV2 scenarioACells =
      [[("pu_quant", VNum 5), ("description", VStr "Widget"),
        ("pu_price", VStr "$2.00"), ("total", VStr "$10.00")]] := by
  decide

/-- A generic failure with no retry hints. -/
def genericBoomError : ErrorRec := ⟨"boom", some 500, none, none⟩

/-- A 429 failure carrying a negative `retryAfterInMs`. -/
def negRetryAfterError : ErrorRec := ⟨"Too Many Requests", some 429, some (-1), none⟩

/-- A 429 failure whose `retry-after` header reads `2000`. -/
def e2000 : ErrorRec := ⟨"Too Many Requests", some 429, none, some "2000"⟩

/-- C2, counterexample.  The claim's bound `0 ≤ delay` fails: the V2
retry loop adopts a service-suggested `retryAfterInMs` without a sign
guard, so a 429 error carrying `retryAfterInMs = -1` yields the computed
delay `-1 < 0`.  (The V1 revision, lines 176-178, guards with
`suggestedDelayMs > 0`; the cited V2 revision does not.) -/
theorem C2_counterexample :
    computeDelayV2 0 negRetryAfterError = -1 ∧
      ¬ 0 ≤ computeDelayV2 0 negRetryAfterError := by
  refine ⟨by decide, by decide⟩

/-- C2, amended.  `analyzeDocument` performs at most
`MAX_RETRIES + 1 = 4` attempts; a failed attempt `k` whose error carries
no service-suggested delay waits exactly
`min(INITIAL_DELAY_MS * 2^k, MAX_DELAY_MS)`; every computed delay is at
most `MAX_DELAY_MS = 30000`; and a computed delay is non-negative
whenever the service-suggested value (if any) is non-negative — the
unguarded adoption of a negative suggestion is the only way below 0. -/
theorem C2_theorem :
    (∀ script : ℕ → Except ErrorRec TablesResult,
        (analyzeRun script).attempts ≤ MAX_RETRIES + 1)
    ∧ (∀ (k : ℕ) (e : ErrorRec), k < MAX_RETRIES → suggestedDelayV2 e = none →
        computeDelayV2 k e = min (INITIAL_DELAY_MS * 2 ^ k) MAX_DELAY_MS)
    ∧ (∀ (k : ℕ) (e : ErrorRec), computeDelayV2 k e ≤ MAX_DELAY_MS)
    ∧ (∀ (k : ℕ) (e : ErrorRec) (d : ℤ), suggestedDelayV2 e = some d → 0 ≤ d →
        0 ≤ computeDelayV2 k e)
    ∧ (∀ (k : ℕ) (e : ErrorRec), suggestedDelayV2 e = none →
        0 ≤ computeDelayV2 k e) := by
  refine ⟨?_, ?_, ?_, ?_, ?_⟩
  · intro script
    exact runRetry_attempts_le script MAX_RETRIES 0
  · intro k e _ h
    unfold computeDelayV2
    rw [h]
  · intro k e
    unfold computeDelayV2
    cases suggestedDelayV2 e <;> simp [min_le_right]
  · intro k e d h hd
    unfold computeDelayV2
    rw [h]
    refine le_min hd ?_
    show (0 : ℤ) ≤ 30000
    norm_num
  · intro k e h
    unfold computeDelayV2
    rw [h]
    refine le_min ?_ ?_
    · show (0 : ℤ) ≤ 3000 * 2 ^ k
      positivity
    · show (0 : ℤ) ≤ 30000
      norm_num

/-- C2, witness: the amended bounds instantiated at a concrete generic
failure (attempt 1) and at the concrete header-suggested 429. -/
theorem C2_witness :
    (analyzeRun (fun _ => Except.error genericBoomError)).attempts ≤ MAX_RETRIES + 1
    ∧ computeDelayV2 1 genericBoomError = min (INITIAL_DELAY_MS * 2 ^ 1) MAX_DELAY_MS
    ∧ computeDelayV2 1 genericBoomError ≤ MAX_DELAY_MS
    ∧ 0 ≤ computeDelayV2 0 e2000
    ∧ 0 ≤ computeDelayV2 1 genericBoomError :=
  ⟨C2_theorem.1 _,
   C2_theorem.2.1 1 genericBoomError (by decide) (by decide),
   C2_theorem.2.2.1 1 genericBoomError,
   C2_theorem.2.2.2.1 0 e2000 2000000 (by decide) (by decide),
   C2_theorem.2.2.2.2 1 genericBoomError (by decide)⟩

/-- A sparse cell list: row 0 has columns 0 and 1, row 1 only column 0.
The spec promises the grid `[["a", "b"], ["c", ""]]` here. -/
def c3cells : List Cell := [⟨0, 0, "a"⟩, ⟨0, 1, "b"⟩, ⟨1, 0, "c"⟩]

/-- C3, counterexample.  `extractTableData` does not produce the
rectangular `(max row + 1) × (max col + 1)` grid with empty-string
fill: on the sparse input `c3cells` it produces the jagged
`[["a", "b"], ["c"]]` (row lengths 2 and 1), not the spec's
`[["a", "b"], ["c", ""]]`, so the header classifier can receive a
jagged array. -/
theorem C3_counterexample :
    specRectangularGrid c3cells = [["a", "b"], ["c", ""]]
    ∧ extractTableData c3cells ≠ specRectangularGrid c3cells
    ∧ (extractTableData c3cells).map List.length = [2, 1] := by
  refine ⟨by decide, by decide, by decide⟩

/-- C3, amended.  `extractTableData` groups the cells sorted by
`(rowIndex, columnIndex)` by row-index change: its rows concatenate to
exactly the sorted cell contents — nothing is dropped and no
empty-string padding is inserted — so column gaps and missing rows close
up and the output is jagged whenever present rows contribute different
cell counts (on `c3cells`: rows `[["a", "b"], ["c"]]`). -/
theorem C3_theorem :
    (∀ cells : List Cell,
        (extractTableData cells).flatten = (sortCells cells).map Cell.content)
    ∧ extractTableData c3cells = [["a", "b"], ["c"]]
    ∧ (extractTableData c3cells).map List.length = [2, 1] :=
  ⟨extractTableData_flatten, by decide, by decide⟩

/-- A table whose two columns both contain part numbers in the data
row. -/
def c4table : List (List String) := [["a", "b"], ["P12-345-678", "P99-888-777"]]

/-- C4: on a table with part numbers in two columns, the V2
`replaceImportHeaders` (lines 438-447, no uniqueness flag) renames BOTH
columns to `pr_codenum`, while the V1 revision (lines 60-74, with the
`prCodeNumAssigned` flag whose comment promises "only one column is
named 'pr_codenum'") renames only the leftmost matching column. -/
theorem C4_theorem :
    replaceImportHeadersV2 c4table =
      [["pr_codenum", "pr_codenum"], ["P12-345-678", "P99-888-777"]]
    ∧ (((replaceImportHeadersV2 c4table).get? 0).getD []).count "pr_codenum" = 2
    ∧ replaceImportHeadersV1 c4table =
        [["pr_codenum", "b"], ["P12-345-678", "P99-888-777"]] := by
  refine ⟨by decide, by decide, by decide⟩

/-- A one-row grid whose only row is data-shaped:
`["P12-345-678", "2", "$10.00", "$20.00"]`. -/
def c5grid : List (List String) := [["P12-345-678", "2", "$10.00", "$20.00"]]

/-- C5, counterexample.  The V2 classifier (lines 426-449) has no
headerless detection: it unconditionally consumes the first row as the
header row.  On a grid whose only row is the data-shaped
`["P12-345-678", "2", "$10.00", "$20.00"]`, that row becomes the
(lowercased) header row and does NOT appear among the output data
rows — the claim says it must. -/
theorem C5_counterexample :
    replaceImportHeadersV2 c5grid = [["p12-345-678", "2", "$10.00", "$20.00"]]
    ∧ ["P12-345-678", "2", "$10.00", "$20.00"] ∉ (replaceImportHeadersV2 c5grid).drop 1 := by
  refine ⟨by decide, by decide⟩

/-- C5, amended.  Neither cited classifier implements keyword/majority
headerless detection.  The V3 classifier (lines 778-832) treats EVERY
row as data: it returns all input rows unmodified and assigns headers
positionally (with the part-number column forced to `pr_codenum`), so
under it the data-shaped first row does appear among the output data
rows; the V2 classifier instead always consumes the first row as
headers. -/
theorem C5_theorem :
    (∀ dataRows : List (List String), (replaceImportHeadersV3 dataRows).rows = dataRows)
    ∧ replaceImportHeadersV3 c5grid =
        ⟨["pr_codenum", "description", "pu_quant", "pu_price"], c5grid⟩ := by
  constructor
  · intro dataRows
    unfold replaceImportHeadersV3
    by_cases h : (dataRows.head?.getD []).isEmpty
    · rw [if_pos h]
    · rw [if_neg h]
      dsimp only
      split <;> rfl
  · decide

/-- An item carrying the three numeric fields as zero and a
whitespace-only description. -/
def zeroItem : JSObj :=
  [("pu_quant", VNum 0), ("pu_price", VNum 0), ("total", VNum 0),
   ("description", VStr "   ")]

/-- C6.  In the export sanitization of `generateExcelOutput` (V1): a
numeric zero in `pu_quant`, `pu_price` or `total` is preserved as 0 and
never coerced to null; a string field whose value is only whitespace
becomes null; and a numeric-field string that still fails `parseFloat`
after stripping `$` and `,` is preserved as the trimmed string. -/
theorem C6_theorem :
    (∀ item : JSObj, objGet item "pu_quant" = some (VNum 0) →
        objGet (processItemV1 item) "pu_quant" = some (VNum 0))
    ∧ (∀ item : JSObj, objGet item "pu_price" = some (VNum 0) →
        objGet (processItemV1 item) "pu_price" = some (VNum 0))
    ∧ (∀ item : JSObj, objGet item "total" = some (VNum 0) →
        objGet (processItemV1 item) "total" = some (VNum 0))
    ∧ (∀ (item : JSObj) (s : String), objGet item "description" = some (VStr s) →
        jsTrim s = "" → objGet (processItemV1 item) "description" = some VNull)
    ∧ (∀ s : String, jsTrim s ≠ "" → jsParseFloat (stripCurrency (jsTrim s)) = none →
        processNumericField (VStr s) = VStr (jsTrim s)) := by
  refine ⟨?_, ?_, ?_, ?_, ?_⟩
  · intro item h
    have e1 : objGet (processItemV1 item) "pu_quant" =
        some (processNumericField (objGetD item "pu_quant" VUndef)) := rfl
    have e2 : objGetD item "pu_quant" VUndef = VNum 0 := by
      unfold objGetD; rw [h]; rfl
    rw [e1, e2]; decide
  · intro item h
    have e1 : objGet (processItemV1 item) "pu_price" =
        some (processNumericField (objGetD item "pu_price" VUndef)) := rfl
    have e2 : objGetD item "pu_price" VUndef = VNum 0 := by
      unfold objGetD; rw [h]; rfl
    rw [e1, e2]; decide
  · intro item h
    have e1 : objGet (processItemV1 item) "total" =
        some (processNumericField (objGetD item "total" VUndef)) := rfl
    have e2 : objGetD item "total" VUndef = VNum 0 := by
      unfold objGetD; rw [h]; rfl
    rw [e1, e2]; decide
  · intro item s h hts
    have e1 : objGet (processItemV1 item) "description" =
        some (processStringField (objGetD item "description" VUndef)) := rfl
    have e2 : objGetD item "description" VUndef = VStr s := by
      unfold objGetD; rw [h]; rfl
    rw [e1, e2]
    show some (if jsTrim s = "" then VNull else VStr (jsTrim s)) = some VNull
    rw [if_pos hts]
  · intro s h1 h2
    show (if jsTrim s = "" then VNull
      else match jsParseFloat (stripCurrency (jsTrim s)) with
        | none => VStr (jsTrim s)
        | some num => VNum num) = VStr (jsTrim s)
    rw [if_neg h1, h2]

/-- C6, witness: the guarantees instantiated on `zeroItem` and on the
unparsable numeric string `"N/A"`. -/
theorem C6_witness :
    objGet (processItemV1 zeroItem) "pu_quant" = some (VNum 0)
    ∧ objGet (processItemV1 zeroItem) "pu_price" = some (VNum 0)
    ∧ objGet (processItemV1 zeroItem) "total" = some (VNum 0)
    ∧ objGet (processItemV1 zeroItem) "description" = some VNull
    ∧ processNumericField (VStr "N/A") = VStr (jsTrim "N/A") :=
  ⟨C6_theorem.1 zeroItem (by decide),
   C6_theorem.2.1 zeroItem (by decide),
   C6_theorem.2.2.1 zeroItem (by decide),
   C6_theorem.2.2.2.1 zeroItem "   " (by decide) (by decide),
   C6_theorem.2.2.2.2 "N/A" (by decide) (by decide)⟩

/-- A 429 error carrying `retry-after: 2000` surfaced during all-fail
runs with distinct status codes. -/
def err500 : ErrorRec := ⟨"Persistent failure", some 500, none, none⟩

/-- The same failure message with a different status code. -/
def err404 : ErrorRec := ⟨"Persistent failure", some 404, none, none⟩

/-- An error with no status code, as a plain `Error` has none. -/
def persistentError : ErrorRec := ⟨"Persistent failure", none, none, none⟩

/-- C7, counterexample.  The claim says a numeric `retry-after` header
value above 1000 is treated as already being milliseconds, so the header
`2000` should give the delay 2000ms.  The source multiplies EVERY parsed
header value by 1000 (seconds), so `2000` becomes 2000000ms and is then
capped to 30000 — not 2000. -/
theorem C7_counterexample :
    computeDelayV2 0 e2000 = 30000 ∧ computeDelayV2 0 e2000 ≠ 2000 := by
  refine ⟨by decide, by decide⟩

/-- C7, amended.  On a 429 failure with no `retryAfterInMs`, a truthy
`retry-after` header that parses to `n` is always interpreted as `n`
seconds: the suggested delay is `n * 1000` milliseconds regardless of
the magnitude of `n` (no greater-than-1000 means-milliseconds case
exists), and the computed delay is that value capped at
`MAX_DELAY_MS`. -/
theorem C7_theorem (e : ErrorRec) (h : String) (n : ℤ) (k : ℕ)
    (h429 : e.statusCode = some 429) (hms : e.retryAfterInMs = none)
    (hh : e.retryAfterHeader = some h) (hne : h ≠ "")
    (hp : jsParseInt h = some n) :
    suggestedDelayV2 e = some (n * 1000)
    ∧ computeDelayV2 k e = min (n * 1000) MAX_DELAY_MS := by
  have hs : suggestedDelayV2 e = some (n * 1000) := by
    unfold suggestedDelayV2
    rw [h429, hms, hh]
    simp [hne, hp]
  exact ⟨hs, by unfold computeDelayV2; rw [hs]⟩

/-- C7, witness: the header `"2000"` yields the suggested delay
`2000 * 1000` ms. -/
theorem C7_witness :
    suggestedDelayV2 e2000 = some (2000 * 1000)
    ∧ computeDelayV2 0 e2000 = min (2000 * 1000) MAX_DELAY_MS :=
  C7_theorem e2000 "2000" 2000 0 rfl rfl rfl (by decide) (by decide)

/-- C8, counterexample.  The claim says the terminal failure carries the
last error's status code when it has one.  Two all-fail runs whose last
errors differ only in status code (500 vs 404) produce the IDENTICAL
`ProcessingResult` — only the message is carried, so the result cannot
carry the status code. -/
theorem C8_counterexample :
    err500.statusCode = some 500
    ∧ err404.statusCode = some 404
    ∧ analyzeDocumentResult (fun _ => Except.error err500) =
        analyzeDocumentResult (fun _ => Except.error err404)
    ∧ analyzeDocumentResult (fun _ => Except.error err500) =
        ⟨false, none, some "Persistent failure"⟩ := by
  refine ⟨rfl, rfl, by decide, by decide⟩

/-- C8, amended.  When all `MAX_RETRIES + 1` attempts for a page fail,
`analyzeDocument` surfaces `{success: false, error: <last error's
message>}` rather than throwing (the rethrown last error is caught by
the surrounding try); the status code is logged but not included in the
returned result. -/
theorem C8_theorem (script : ℕ → Except ErrorRec TablesResult) (e : ErrorRec)
    (hall : ∀ j, j ≤ MAX_RETRIES → ∃ e', script j = Except.error e')
    (h3 : script MAX_RETRIES = Except.error e) :
    analyzeDocumentResult script = ⟨false, none, some e.message⟩ := by
  have h := runRetry_allfail_outcome script MAX_RETRIES 0
    (fun j hj1 hj2 => hall j (by omega))
  rw [Nat.zero_add] at h
  unfold analyzeDocumentResult analyzeRun
  rw [h, h3]

/-- C8, witness: a run in which every attempt throws
`persistentError`. -/
theorem C8_witness :
    analyzeDocumentResult (fun _ => Except.error persistentError) =
      ⟨false, none, some "Persistent failure"⟩ :=
  C8_theorem (fun _ => Except.error persistentError) persistentError
    (fun _ _ => ⟨persistentError, rfl⟩) rfl

/-- The repo test's scenario-5 item: `{pr_codenum: 'P789',
pu_price: 12.34}`, with no `description` key. -/
def itemNoDesc : JSObj := [("pr_codenum", VStr "P789"), ("pu_price", VNum (617 / 50))]

/-- C9.  The `Object.keys`-based sanitizer (V2, lines 713-720) preserves
the key set exactly, so keys absent from the item stay absent.  The
field-wise processing of V1/V3 (lines 302-307) violates the claim: on an
item with no `description` key it emits a `description` key with value
null — contradicting the repo's own test, which expects the missing
`description` of scenario-5 to remain `undefined` in the sheet data. -/
theorem C9_theorem :
    (∀ item : JSObj, (sanitizeItemV2 item).map Prod.fst = item.map Prod.fst)
    ∧ objGet itemNoDesc "description" = none
    ∧ objGet (processItemV1 itemNoDesc) "description" = some VNull
    ∧ objGet (sanitizeItemV2 itemNoDesc) "description" = none := by
  refine ⟨?_, by decide, by decide, by decide⟩
  intro item
  unfold sanitizeItemV2
  rw [List.map_map]
  rfl

/-- Rows in which one processed item is entirely null and one is not. -/
def blankAndReal : List JSObj :=
  [[("description", VNull)], [("description", VStr "x")]]

/-- C10.  The blank-row filter of the V3 `generateExcelOutput`: an item
all of whose property values are null never reaches the sheet rows;
every surviving row is an input row with some non-null value (also after
the full per-item processing); and the log consists of at most one entry
— none at all when nothing was removed. -/
theorem C10_theorem :
    (∀ (processedItems : List JSObj) (item : JSObj), item ∈ processedItems →
        (∀ kv ∈ item, kv.2 = VNull) → item ∉ finalItems processedItems)
    ∧ (∀ (processedItems : List JSObj) (item : JSObj), item ∈ finalItems processedItems →
        item ∈ processedItems ∧ ∃ kv ∈ item, kv.2 ≠ VNull)
    ∧ (∀ (items : List JSObj) (it : JSObj), it ∈ generateExcelRowsV3 items →
        ∃ kv ∈ it, kv.2 ≠ VNull)
    ∧ (∀ processedItems : List JSObj, finalItems processedItems = processedItems →
        blankRowLog processedItems = [])
    ∧ (∀ processedItems : List JSObj, (blankRowLog processedItems).length ≤ 1) := by
  have hmem : ∀ (l : List JSObj) (item : JSObj), item ∈ finalItems l →
      item ∈ l ∧ ∃ kv ∈ item, kv.2 ≠ VNull := by
    intro l item h
    unfold finalItems at h
    rw [List.mem_filter] at h
    refine ⟨h.1, ?_⟩
    have h2 := h.2
    rw [List.any_eq_true] at h2
    obtain ⟨kv, hkv, hne⟩ := h2
    exact ⟨kv, hkv, by simpa using hne⟩
  refine ⟨?_, hmem, ?_, ?_, ?_⟩
  · intro l item hin hall hmem2
    obtain ⟨-, kv, hkv, hne⟩ := hmem l item hmem2
    exact hne (hall kv hkv)
  · intro items it h
    exact (hmem _ it h).2
  · intro l h
    unfold blankRowLog
    rw [if_neg]
    simp [h]
  · intro l
    unfold blankRowLog
    split <;> simp

/-- C10, witness: the filter instantiated on a concrete list with one
all-null row and one real row, and on the full pipeline over an item
with a non-null note. -/
theorem C10_witness :
    [("description", VNull)] ∉ finalItems blankAndReal
    ∧ ([("description", VStr "x")] ∈ blankAndReal ∧
        ∃ kv ∈ [("description", VStr "x")], kv.2 ≠ VNull)
    ∧ (∃ kv ∈ processItemV1 [("notes", VStr "x")], kv.2 ≠ VNull)
    ∧ blankRowLog [[("description", VStr "x")]] = []
    ∧ (blankRowLog blankAndReal).length ≤ 1 :=
  ⟨C10_theorem.1 blankAndReal [("description", VNull)] (by decide) (by decide),
   C10_theorem.2.1 blankAndReal [("description", VStr "x")] (by decide),
   C10_theorem.2.2.1 [[("notes", VStr "x")]] (processItemV1 [("notes", VStr "x")]) (by decide),
   C10_theorem.2.2.2.1 [[("description", VStr "x")]] (by decide),
   C10_theorem.2.2.2.2 blankAndReal⟩
